import Mathlib

/-!
Verification development for the AI-Travel-Itinerary-Planner repository
(single source file `src/app.py`, a Streamlit application).

The Python code is shallowly embedded: pure helpers become Lean functions,
and each call to the `random` module is made explicit as a parameter — a
list of drawn fallback indices for `create_global_pool`, a list of sampled
positions for `generate_groups_from_global_pool`, and a stream of
(template index, optional adjective index) choices for
`generate_dynamic_fallback`. A run of the Python program corresponds to
one concrete value of those parameters; properties quantify over them,
with the guarantees of the library calls (`random.randrange` yields an
index below the length, `random.sample` yields distinct valid positions)
stated as hypotheses.
-/

/-- The deduplication loop used in `create_global_pool` (src/app.py:68-71)
and in `fetch_itinerary_from_wiki` (src/app.py:109-113):
`for task in tasks: if task not in unique_tasks: unique_tasks.append(task)`.
`acc` is the accumulator `unique_tasks`. -/
def dedupAux (acc : List String) : List String → List String
  | [] => acc
  | t :: ts => dedupAux (if t ∈ acc then acc else acc ++ [t]) ts

/-- The while-loop of `create_global_pool` (src/app.py:72-75):
`while len(unique_tasks) < required: candidate = fallback_list[...]; if candidate not in unique_tasks: unique_tasks.append(candidate)`.
The successive values of `candidate` are the list `cands`; a run of the
Python loop that exits corresponds to a `cands` long enough for the pool to
reach `required` (the guard then ignores the rest). -/
def topUpLoop (required : Nat) (pool : List String) : List String → List String
  | [] => pool
  | c :: cs =>
    if pool.length < required then
      topUpLoop required (if c ∈ pool then pool else pool ++ [c]) cs
    else pool

/-- Embedding of `create_global_pool(tasks, fallback_list, destination, required)`
(src/app.py:63-76). The random draws `fallback_list[random.randrange(len(fallback_list))]`
are made explicit as the index list `draws`, consumed in order
(`destination` is a parameter of the Python function, unused in its body). -/
def create_global_pool (tasks fallback_list : List String) (destination : String)
    (required : Nat) (draws : List Nat) : List String :=
  let _ := destination
  topUpLoop required (dedupAux [] tasks) (draws.map fun i => fallback_list.getD i "")

theorem nodup_append_single (l : List String) (a : String) (h : l.Nodup) (ha : a ∉ l) :
    (l ++ [a]).Nodup := by
  induction l with
  | nil => simp
  | cons x xs ih =>
    rcases List.nodup_cons.1 h with ⟨hx, hxs⟩
    refine List.nodup_cons.2 ⟨?_, ih hxs (fun hm => ha (List.mem_cons_of_mem _ hm))⟩
    intro hmem
    rcases List.mem_append.1 hmem with hm | hm
    · exact hx hm
    · exact ha (by simp_all)

theorem dedupAux_nodup (l : List String) (acc : List String) (hacc : acc.Nodup) :
    (dedupAux acc l).Nodup := by
  induction l generalizing acc with
  | nil => simpa [dedupAux] using hacc
  | cons t ts ih =>
    simp only [dedupAux]
    split
    · exact ih acc hacc
    · exact ih _ (nodup_append_single acc t hacc (by assumption))

theorem dedupAux_toFinset (l : List String) (acc : List String) :
    (dedupAux acc l).toFinset = acc.toFinset ∪ l.toFinset := by
  induction l generalizing acc with
  | nil => simp [dedupAux]
  | cons t ts ih =>
    simp only [dedupAux]
    split
    · rw [ih]
      ext x
      simp only [Finset.mem_union, List.mem_toFinset, List.mem_cons]
      constructor
      · rintro (h | h)
        · exact Or.inl h
        · exact Or.inr (Or.inr h)
      · rintro (h | h | h)
        · exact Or.inl h
        · exact Or.inl (by simp_all)
        · exact Or.inr h
    · rw [ih]
      ext x
      simp only [Finset.mem_union, List.mem_toFinset, List.mem_append,
        List.mem_singleton, List.mem_cons]
      tauto

theorem topUpLoop_nodup (cs : List String) (required : Nat) (pool : List String)
    (hpool : pool.Nodup) : (topUpLoop required pool cs).Nodup := by
  induction cs generalizing pool with
  | nil => simpa [topUpLoop] using hpool
  | cons c cs ih =>
    simp only [topUpLoop]
    split
    · split
      · exact ih pool hpool
      · exact ih _ (nodup_append_single pool c hpool (by assumption))
    · exact hpool

theorem topUpLoop_append_rest (cs : List String) (required : Nat) (pool : List String) :
    ∃ rest, topUpLoop required pool cs = pool ++ rest ∧ ∀ x ∈ rest, x ∈ cs := by
  induction cs generalizing pool with
  | nil => exact ⟨[], by simp [topUpLoop]⟩
  | cons c cs ih =>
    simp only [topUpLoop]
    split
    · split
      · obtain ⟨rest, hr, hm⟩ := ih pool
        exact ⟨rest, hr, fun x hx => List.mem_cons_of_mem _ (hm x hx)⟩
      · obtain ⟨rest, hr, hm⟩ := ih (pool ++ [c])
        refine ⟨c :: rest, by simpa using hr, ?_⟩
        intro x hx
        rcases List.mem_cons.1 hx with h | h
        · simp [h]
        · exact List.mem_cons_of_mem _ (hm x h)
    · exact ⟨[], by simp⟩

theorem topUpLoop_length_le (cs : List String) (required : Nat) (pool : List String)
    (hpool : pool.length ≤ required) : (topUpLoop required pool cs).length ≤ required := by
  induction cs generalizing pool with
  | nil => simpa [topUpLoop] using hpool
  | cons c cs ih =>
    simp only [topUpLoop]
    split
    · split
      · exact ih pool hpool
      · refine ih _ ?_
        simp only [List.length_append, List.length_singleton]
        omega
    · exact hpool

theorem topUpLoop_of_full (cs : List String) (required : Nat) (pool : List String)
    (hpool : required ≤ pool.length) : topUpLoop required pool cs = pool := by
  cases cs with
  | nil => rfl
  | cons c cs => simp [topUpLoop, Nat.not_lt.2 hpool]

theorem topUpLoop_length_lower (cs : List String) (required : Nat) (pool : List String) :
    min required (pool ++ cs).toFinset.card ≤ (topUpLoop required pool cs).length := by
  induction cs generalizing pool with
  | nil =>
    simp only [topUpLoop, List.append_nil]
    calc min required pool.toFinset.card ≤ pool.toFinset.card := Nat.min_le_right _ _
      _ ≤ pool.length := pool.toFinset_card_le
  | cons c cs ih =>
    simp only [topUpLoop]
    split
    · split
      · refine le_trans (le_of_eq ?_) (ih pool)
        have : (pool ++ c :: cs).toFinset = (pool ++ cs).toFinset := by
          ext x
          simp only [List.mem_toFinset, List.mem_append, List.mem_cons]
          constructor
          · rintro (h | h | h)
            · exact Or.inl h
            · exact Or.inl (by simp_all)
            · exact Or.inr h
          · tauto
        rw [this]
      · refine le_trans (le_of_eq ?_) (ih (pool ++ [c]))
        have : (pool ++ c :: cs).toFinset = (pool ++ [c] ++ cs).toFinset := by
          ext x
          simp only [List.mem_toFinset, List.mem_append, List.mem_cons,
            List.mem_singleton]
          tauto
        rw [this]
    · calc min required (pool ++ c :: cs).toFinset.card ≤ required := Nat.min_le_left _ _
        _ ≤ pool.length := Nat.not_lt.1 (by assumption)

theorem topUpLoop_length_of_exit (cs : List String) (required : Nat) (pool : List String)
    (hret : required ≤ (topUpLoop required pool cs).length) :
    (topUpLoop required pool cs).length = max required pool.length := by
  by_cases h : required ≤ pool.length
  · rw [topUpLoop_of_full cs required pool h]
    omega
  · have := topUpLoop_length_le cs required pool (by omega)
    omega

theorem getD_mem_of_lt (l : List String) (i : Nat) (d : String) (h : i < l.length) :
    l.getD i d ∈ l := by
  rw [List.getD_eq_getElem l d h]
  exact List.getElem_mem h

theorem range_map_getD (l : List String) (d : String) :
    (List.range l.length).map (fun i => l.getD i d) = l := by
  apply List.ext_getElem
  · simp
  · intro i h1 h2
    simp only [List.getElem_map, List.getElem_range]
    exact List.getD_eq_getElem l d h2

/-- The claim as written fails: `create_global_pool` stops adding fallback items
once the pool reaches `required`, but it never shrinks the deduplicated
candidates, so with more than `required` distinct candidates the returned pool
is longer than `required`. Here candidates `["a", "b"]`, a fallback source with
plenty of unique items, and `required = 1`: the function returns (the top-up
loop exits at once, consuming no draws) a pool of length 2, not 1. -/
theorem create_global_pool_C1_cex :
    1 ≤ (["c", "d", "e"] : List String).toFinset.card
    ∧ create_global_pool ["a", "b"] ["c", "d", "e"] "X" 1 [] = ["a", "b"]
    ∧ (create_global_pool ["a", "b"] ["c", "d", "e"] "X" 1 []).length ≠ 1 := by
  refine ⟨by decide, by decide, by decide⟩

/-- C1 (amended): a pool returned by `create_global_pool` (i.e. one whose
top-up loop has exited: its length has reached `required`) has no duplicates,
begins with the candidates deduplicated first-occurrence-wins in their original
order, is followed only by items of the fallback source, and its length is
`max required (number of deduplicated candidates)` — exactly `required`
whenever the deduplicated candidates do not already exceed `required`. -/
theorem create_global_pool_C1 (tasks fallback_list : List String) (destination : String)
    (required : Nat) (draws : List Nat)
    (hdraws : ∀ i ∈ draws, i < fallback_list.length)
    (hret : required ≤ (create_global_pool tasks fallback_list destination required draws).length) :
    (create_global_pool tasks fallback_list destination required draws).Nodup
    ∧ (∃ rest, create_global_pool tasks fallback_list destination required draws
          = dedupAux [] tasks ++ rest ∧ ∀ x ∈ rest, x ∈ fallback_list)
    ∧ (create_global_pool tasks fallback_list destination required draws).length
        = max required (dedupAux [] tasks).length := by
  simp only [create_global_pool] at hret ⊢
  refine ⟨topUpLoop_nodup _ _ _ (dedupAux_nodup tasks [] (by simp)), ?_, ?_⟩
  · obtain ⟨rest, hr, hm⟩ := topUpLoop_append_rest
      (draws.map fun i => fallback_list.getD i "") required (dedupAux [] tasks)
    refine ⟨rest, hr, ?_⟩
    intro x hx
    obtain ⟨i, hi, hgi⟩ := List.mem_map.1 (hm x hx)
    rw [← hgi]
    exact getD_mem_of_lt fallback_list i "" (hdraws i hi)
  · exact topUpLoop_length_of_exit _ _ _ hret

/-- The members of a returned pool all come from the candidates or the
fallback source. -/
theorem create_global_pool_subset (tasks fallback_list : List String) (destination : String)
    (required : Nat) (draws : List Nat)
    (hdraws : ∀ i ∈ draws, i < fallback_list.length) :
    ∀ x ∈ create_global_pool tasks fallback_list destination required draws,
      x ∈ tasks ∨ x ∈ fallback_list := by
  intro x hx
  simp only [create_global_pool] at hx
  obtain ⟨rest, hr, hm⟩ := topUpLoop_append_rest
    (draws.map fun i => fallback_list.getD i "") required (dedupAux [] tasks)
  rw [hr] at hx
  rcases List.mem_append.1 hx with h | h
  · left
    have : x ∈ (dedupAux [] tasks).toFinset := List.mem_toFinset.2 h
    rw [dedupAux_toFinset] at this
    simpa using this
  · right
    obtain ⟨i, hi, hgi⟩ := List.mem_map.1 (hm x h)
    rw [← hgi]
    exact getD_mem_of_lt fallback_list i "" (hdraws i hi)

/-- The claim as written fails in its second half: with candidates
`["p", "q", "r"]`, `required = 2` and a fallback source holding 2 unique items
beyond the candidates, the top-up loop exits at once (so it terminates), but
the pool has size 3, not the required size 2. -/
theorem create_global_pool_C2_cex :
    2 ≤ (["x", "y"] : List String).toFinset.card
    ∧ create_global_pool ["p", "q", "r"] ["x", "y"] "X" 2 [] = ["p", "q", "r"]
    ∧ (create_global_pool ["p", "q", "r"] ["x", "y"] "X" 2 []).length ≠ 2 := by
  refine ⟨by decide, by decide, by decide⟩

/-- C2 (amended): if the union of the candidates and the fallback source has
fewer than `required` distinct strings, the top-up loop of
`create_global_pool` never brings the pool to `required` whatever indices are
drawn — its guard never turns false, so the Python loop never terminates.
Conversely, when that union has at least `required` distinct strings, some
draw sequence makes the loop exit, and the pool then has length
`max required (number of deduplicated candidates)` — the required size
whenever the deduplicated candidates do not already exceed it. -/
theorem create_global_pool_C2 (tasks fallback_list : List String) (destination : String)
    (required : Nat) :
    ((tasks.toFinset ∪ fallback_list.toFinset).card < required →
      ∀ draws : List Nat, (∀ i ∈ draws, i < fallback_list.length) →
        (create_global_pool tasks fallback_list destination required draws).length < required)
    ∧ (required ≤ (tasks.toFinset ∪ fallback_list.toFinset).card →
      ∃ draws : List Nat, (∀ i ∈ draws, i < fallback_list.length)
        ∧ required ≤ (create_global_pool tasks fallback_list destination required draws).length
        ∧ (create_global_pool tasks fallback_list destination required draws).length
            = max required (dedupAux [] tasks).length) := by
  constructor
  · intro hcard draws hdraws
    have hnodup : (create_global_pool tasks fallback_list destination required draws).Nodup := by
      simp only [create_global_pool]
      exact topUpLoop_nodup _ _ _ (dedupAux_nodup tasks [] (by simp))
    have hsub : (create_global_pool tasks fallback_list destination required draws).toFinset
        ⊆ tasks.toFinset ∪ fallback_list.toFinset := by
      intro x hx
      rcases create_global_pool_subset tasks fallback_list destination required draws hdraws x
        (List.mem_toFinset.1 hx) with h | h
      · exact Finset.mem_union_left _ (List.mem_toFinset.2 h)
      · exact Finset.mem_union_right _ (List.mem_toFinset.2 h)
    calc (create_global_pool tasks fallback_list destination required draws).length
        = (create_global_pool tasks fallback_list destination required draws).toFinset.card :=
          (List.toFinset_card_of_nodup hnodup).symm
      _ ≤ (tasks.toFinset ∪ fallback_list.toFinset).card := Finset.card_le_card hsub
      _ < required := hcard
  · intro hcard
    refine ⟨List.range fallback_list.length, fun i hi => List.mem_range.1 hi, ?_⟩
    have hmap : (List.range fallback_list.length).map (fun i => fallback_list.getD i "")
        = fallback_list := range_map_getD fallback_list ""
    have hlow := topUpLoop_length_lower fallback_list required (dedupAux [] tasks)
    have hfin : (dedupAux [] tasks ++ fallback_list).toFinset
        = tasks.toFinset ∪ fallback_list.toFinset := by
      rw [List.toFinset_append, dedupAux_toFinset]
      simp
    rw [hfin] at hlow
    have hge : required ≤
        (create_global_pool tasks fallback_list destination required
          (List.range fallback_list.length)).length := by
      simp only [create_global_pool, hmap]
      omega
    exact ⟨hge, by
      simp only [create_global_pool, hmap] at hge ⊢
      exact topUpLoop_length_of_exit _ _ _ hge⟩

/-- Witness for C1 at a concrete input: candidates `["a"]`, fallback
`["b", "c"]`, `required = 2`, one drawn index. -/
theorem create_global_pool_C1_witness :
    (create_global_pool ["a"] ["b", "c"] "X" 2 [0]).Nodup
    ∧ (∃ rest, create_global_pool ["a"] ["b", "c"] "X" 2 [0]
          = dedupAux [] ["a"] ++ rest ∧ ∀ x ∈ rest, x ∈ (["b", "c"] : List String))
    ∧ (create_global_pool ["a"] ["b", "c"] "X" 2 [0]).length
        = max 2 (dedupAux [] ["a"]).length :=
  create_global_pool_C1 ["a"] ["b", "c"] "X" 2 [0] (by decide) (by decide)

/-- Embedding of `generate_groups_from_global_pool(global_pool, days, tasks_per_day)`
(src/app.py:78-86). `random.sample(global_pool, required)` draws `required`
items without replacement; the drawn positions are made explicit as the list
`positions` (`random.sample` guarantees them distinct and below the pool's
length — hypotheses of the theorems below). The slice
`sampled_tasks[i*tasks_per_day:(i+1)*tasks_per_day]` is drop-then-take. -/
def generate_groups_from_global_pool (global_pool : List String) (days tasks_per_day : Nat)
    (positions : List Nat) : List (List String) :=
  let sampled_tasks := positions.map fun i => global_pool.getD i ""
  (List.range days).map fun i => (sampled_tasks.drop (i * tasks_per_day)).take tasks_per_day

theorem chunks_join (t : Nat) : ∀ (d : Nat) (l : List String), l.length = d * t →
    ((List.range d).map fun i => (l.drop (i * t)).take t).flatten = l := by
  intro d
  induction d with
  | zero =>
    intro l hl
    simp only [Nat.zero_mul] at hl
    simp [List.length_eq_zero.1 hl]
  | succ d ih =>
    intro l hl
    rw [List.range_succ_eq_map, List.map_cons, List.map_map, List.flatten_cons]
    have h0 : (l.drop (0 * t)).take t = l.take t := by simp
    have hrest : (List.range d).map ((fun i => (l.drop (i * t)).take t) ∘ Nat.succ)
        = (List.range d).map fun i => ((l.drop t).drop (i * t)).take t := by
      apply List.map_congr_left
      intro i _
      simp only [Function.comp_apply, List.drop_drop]
      rw [Nat.succ_mul, Nat.add_comm]
    rw [h0, hrest, ih (l.drop t) (by simp [hl, Nat.succ_mul])]
    exact List.take_append_drop t l

theorem sampled_nodup (global_pool : List String) (positions : List Nat)
    (hnodup : global_pool.Nodup) (hpos : positions.Nodup)
    (hvalid : ∀ i ∈ positions, i < global_pool.length) :
    (positions.map fun i => global_pool.getD i "").Nodup := by
  refine List.Nodup.map_on ?_ hpos
  intro i hi j hj hij
  rw [List.getD_eq_getElem global_pool "" (hvalid i hi),
    List.getD_eq_getElem global_pool "" (hvalid j hj)] at hij
  exact (List.Nodup.getElem_inj_iff hnodup).1 hij

/-- C3: for `D ≥ 1` and a duplicate-free pool of at least `3*D` strings,
`generate_groups_from_global_pool(pool, D, 3)` yields exactly `D` groups of
exactly 3 activities each, which partition the drawn sequence in draw order;
the activities across all groups are pairwise distinct — `3*D` distinct
strings in total — and all drawn from the pool (sampling without
replacement). -/
theorem generate_groups_C3 (global_pool : List String) (D : Nat) (positions : List Nat)
    (hD : 1 ≤ D) (hnodup : global_pool.Nodup) (hsize : 3 * D ≤ global_pool.length)
    (hpos : positions.Nodup) (hlen : positions.length = D * 3)
    (hvalid : ∀ i ∈ positions, i < global_pool.length) :
    (generate_groups_from_global_pool global_pool D 3 positions).length = D
    ∧ (∀ g ∈ generate_groups_from_global_pool global_pool D 3 positions, g.length = 3)
    ∧ (generate_groups_from_global_pool global_pool D 3 positions).flatten
        = positions.map (fun i => global_pool.getD i "")
    ∧ (generate_groups_from_global_pool global_pool D 3 positions).flatten.Nodup
    ∧ (generate_groups_from_global_pool global_pool D 3 positions).flatten.toFinset.card = 3 * D
    ∧ ∀ x ∈ (generate_groups_from_global_pool global_pool D 3 positions).flatten,
        x ∈ global_pool := by
  have hslen : (positions.map fun i => global_pool.getD i "").length = D * 3 := by
    simpa using hlen
  have hjoin : (generate_groups_from_global_pool global_pool D 3 positions).flatten
      = positions.map fun i => global_pool.getD i "" := by
    simp only [generate_groups_from_global_pool]
    exact chunks_join 3 D _ hslen
  have hsnodup := sampled_nodup global_pool positions hnodup hpos hvalid
  refine ⟨by simp [generate_groups_from_global_pool], ?_, hjoin, ?_, ?_, ?_⟩
  · intro g hg
    simp only [generate_groups_from_global_pool, List.mem_map, List.mem_range] at hg
    obtain ⟨i, hi, hgi⟩ := hg
    rw [← hgi, List.length_take, List.length_drop, hslen]
    omega
  · rw [hjoin]
    exact hsnodup
  · rw [hjoin, List.toFinset_card_of_nodup hsnodup, hslen]
    omega
  · intro x hx
    rw [hjoin] at hx
    obtain ⟨i, hi, hgi⟩ := List.mem_map.1 hx
    rw [← hgi]
    exact getD_mem_of_lt global_pool i "" (hvalid i hi)

/-- Witness for C3 at a concrete input: pool `["a", "b", "c"]`, one day,
positions `[2, 0, 1]` (a permutation drawn without replacement). -/
theorem generate_groups_C3_witness :
    (generate_groups_from_global_pool ["a", "b", "c"] 1 3 [2, 0, 1]).length = 1
    ∧ (∀ g ∈ generate_groups_from_global_pool ["a", "b", "c"] 1 3 [2, 0, 1], g.length = 3)
    ∧ (generate_groups_from_global_pool ["a", "b", "c"] 1 3 [2, 0, 1]).flatten
        = ([2, 0, 1] : List Nat).map (fun i => (["a", "b", "c"] : List String).getD i "")
    ∧ (generate_groups_from_global_pool ["a", "b", "c"] 1 3 [2, 0, 1]).flatten.Nodup
    ∧ (generate_groups_from_global_pool ["a", "b", "c"] 1 3 [2, 0, 1]).flatten.toFinset.card = 3 * 1
    ∧ ∀ x ∈ (generate_groups_from_global_pool ["a", "b", "c"] 1 3 [2, 0, 1]).flatten,
        x ∈ (["a", "b", "c"] : List String) :=
  generate_groups_C3 ["a", "b", "c"] 1 [2, 0, 1] (by decide) (by decide) (by decide)
    (by decide) (by decide) (by decide)

/-- The 20 template strings of `generate_dynamic_fallback` (src/app.py:13-34),
each split at its single `\x7b\x7d` placeholder into the text before and after it
(`tpl.format(x)` with one placeholder concatenates: before ++ x ++ after). -/
def templates : List (String × String) :=
  [("Explore local art galleries in ", ""),
   ("Attend a live music concert in ", ""),
   ("Experience a local music festival in ", ""),
   ("Relax in a scenic park in ", ""),
   ("Visit a quirky museum in ", ""),
   ("Discover historical heritage at a museum in ", ""),
   ("Shop at local markets in ", ""),
   ("Browse boutique shops in ", ""),
   ("Join a guided historical tour in ", ""),
   ("Take a local cooking class in ", ""),
   ("Discover hidden alleys in ", ""),
   ("Stroll along the coastline in ", ""),
   ("Enjoy an evening cruise in ", ""),
   ("Attend an art exhibition in ", ""),
   ("Join a street art tour in ", ""),
   ("Visit an open-air festival in ", ""),
   ("Savor regional street food in ", ""),
   ("Take a bicycle tour in ", ""),
   ("Join a cultural workshop in ", ""),
   ("Discover local handicrafts in ", "")]

/-- The adjective list of `generate_dynamic_fallback` (src/app.py:35-37). -/
def adjectives : List String :=
  ["amazing", "unforgettable", "charming", "historic", "vibrant", "quaint",
   "dynamic", "bustling", "splendid", "exciting", "remarkable"]

/-- One loop body of `generate_dynamic_fallback` (src/app.py:41-43): a random
choice is a template index paired with an optional adjective index (`some`
when `random.random() < 0.6` adds an adjective prefix); the produced item is
`tpl.format(prefix + destination)`. -/
def fallbackItem (destination : String) (choice : Nat × Option Nat) : String :=
  let tpl := templates.getD choice.1 ("", "")
  let pfx := match choice.2 with
    | some j => adjectives.getD j "" ++ " "
    | none => ""
  tpl.1 ++ pfx ++ destination ++ tpl.2

/-- The while-loop of `generate_dynamic_fallback` (src/app.py:38-45):
`while len(fallbacks) < count and attempts < count * 10`. `budget` counts the
remaining attempts (`count * 10 - attempts`), so the second conjunct of the
guard is `budget > 0`. The Python `set` is modelled as a duplicate-free list
in insertion order (`list(set(...))` returns its elements in an unspecified
order; no theorem below depends on the order). -/
def fallbackLoop (destination : String) (count : Nat) (stream : Nat → Nat × Option Nat) :
    Nat → Nat → List String → List String
  | 0, _, fallbacks => fallbacks
  | budget + 1, attempts, fallbacks =>
    if fallbacks.length < count then
      fallbackLoop destination count stream budget (attempts + 1)
        (if fallbackItem destination (stream attempts) ∈ fallbacks then fallbacks
         else fallbacks ++ [fallbackItem destination (stream attempts)])
    else fallbacks

/-- Embedding of `generate_dynamic_fallback(destination, count)`
(src/app.py:8-46); `stream` gives the random choice of each attempt. -/
def generate_dynamic_fallback (destination : String) (count : Nat)
    (stream : Nat → Nat × Option Nat) : List String :=
  fallbackLoop destination count stream (count * 10) 0 []

/-- Embedding of `get_fallback_list(destination)` (src/app.py:48-52). -/
def get_fallback_list (destination : String) (stream : Nat → Nat × Option Nat) :
    List String :=
  generate_dynamic_fallback destination 50 stream

theorem fallbackLoop_length_le (destination : String) (count : Nat)
    (stream : Nat → Nat × Option Nat) (budget : Nat) :
    ∀ (attempts : Nat) (fallbacks : List String), fallbacks.length ≤ count →
      (fallbackLoop destination count stream budget attempts fallbacks).length ≤ count := by
  induction budget with
  | zero => intro attempts fallbacks h; simpa [fallbackLoop] using h
  | succ b ih =>
    intro attempts fallbacks h
    simp only [fallbackLoop]
    split
    · split
      · exact ih (attempts + 1) fallbacks h
      · refine ih (attempts + 1) _ ?_
        simp only [List.length_append, List.length_singleton]
        omega
    · exact h

theorem fallbackLoop_nodup (destination : String) (count : Nat)
    (stream : Nat → Nat × Option Nat) (budget : Nat) :
    ∀ (attempts : Nat) (fallbacks : List String), fallbacks.Nodup →
      (fallbackLoop destination count stream budget attempts fallbacks).Nodup := by
  induction budget with
  | zero => intro attempts fallbacks h; simpa [fallbackLoop] using h
  | succ b ih =>
    intro attempts fallbacks h
    simp only [fallbackLoop]
    split
    · split
      · exact ih (attempts + 1) fallbacks h
      · exact ih (attempts + 1) _ (nodup_append_single _ _ h (by assumption))
    · exact h

theorem fallbackLoop_mem (destination : String) (count : Nat)
    (stream : Nat → Nat × Option Nat) (budget : Nat) :
    ∀ (attempts : Nat) (fallbacks : List String),
      ∀ x ∈ fallbackLoop destination count stream budget attempts fallbacks,
        x ∈ fallbacks ∨ ∃ choice, x = fallbackItem destination choice := by
  induction budget with
  | zero => intro attempts fallbacks x hx; exact Or.inl (by simpa [fallbackLoop] using hx)
  | succ b ih =>
    intro attempts fallbacks x hx
    simp only [fallbackLoop] at hx
    split at hx
    · split at hx
      · exact ih (attempts + 1) fallbacks x hx
      · rcases ih (attempts + 1) _ x hx with h | h
        · rcases List.mem_append.1 h with h | h
          · exact Or.inl h
          · exact Or.inr ⟨stream attempts, (List.mem_singleton.1 h)⟩
        · exact Or.inr h
    · exact Or.inl hx

theorem fallbackLoop_stream_agree (destination : String) (count : Nat)
    (stream stream₂ : Nat → Nat × Option Nat) (budget : Nat) :
    ∀ (attempts : Nat) (fallbacks : List String),
      (∀ k, attempts ≤ k → k < attempts + budget → stream k = stream₂ k) →
      fallbackLoop destination count stream budget attempts fallbacks
        = fallbackLoop destination count stream₂ budget attempts fallbacks := by
  induction budget with
  | zero => intro attempts fallbacks _; simp [fallbackLoop]
  | succ b ih =>
    intro attempts fallbacks hagree
    have hcur : stream attempts = stream₂ attempts :=
      hagree attempts (le_refl _) (by omega)
    simp only [fallbackLoop, hcur]
    split
    · exact ih (attempts + 1) _ (fun k hk1 hk2 => hagree k (by omega) (by omega))
    · rfl

theorem fallbackItem_shape (destination : String) (choice : Nat × Option Nat) :
    ∃ p q, fallbackItem destination choice = p ++ destination ++ q := by
  obtain ⟨ti, adj⟩ := choice
  cases adj with
  | none =>
    refine ⟨(templates.getD ti ("", "")).1 ++ "", (templates.getD ti ("", "")).2, ?_⟩
    simp only [fallbackItem]
  | some j =>
    refine ⟨(templates.getD ti ("", "")).1 ++ (adjectives.getD j "" ++ " "),
      (templates.getD ti ("", "")).2, ?_⟩
    simp only [fallbackItem]

/-- C4: `generate_dynamic_fallback(destination, N)` looks at no draw beyond
the first `10*N` (so the Python loop makes at most `10*N` draws and always
terminates), and returns at most `N` pairwise-distinct strings, each
containing the destination name as a substring; in particular
`get_fallback_list` (count 50) returns at most 50 unique strings, all
containing the destination name. -/
theorem generate_dynamic_fallback_C4 (destination : String) (count : Nat)
    (stream : Nat → Nat × Option Nat) :
    (generate_dynamic_fallback destination count stream).length ≤ count
    ∧ (generate_dynamic_fallback destination count stream).Nodup
    ∧ (∀ x ∈ generate_dynamic_fallback destination count stream,
        ∃ p q, x = p ++ destination ++ q)
    ∧ (∀ stream₂ : Nat → Nat × Option Nat, (∀ k, k < count * 10 → stream k = stream₂ k) →
        generate_dynamic_fallback destination count stream
          = generate_dynamic_fallback destination count stream₂)
    ∧ (get_fallback_list destination stream).length ≤ 50
    ∧ ∀ x ∈ get_fallback_list destination stream, ∃ p q, x = p ++ destination ++ q := by
  have hmem : ∀ (c : Nat) (x : String), x ∈ generate_dynamic_fallback destination c stream →
      ∃ p q, x = p ++ destination ++ q := by
    intro c x hx
    rcases fallbackLoop_mem destination c stream (c * 10) 0 [] x hx with h | ⟨choice, hc⟩
    · simp at h
    · exact hc ▸ fallbackItem_shape destination choice
  refine ⟨fallbackLoop_length_le destination count stream (count * 10) 0 [] (by simp),
    fallbackLoop_nodup destination count stream (count * 10) 0 [] (by simp),
    hmem count, ?_,
    fallbackLoop_length_le destination 50 stream (50 * 10) 0 [] (by simp),
    hmem 50⟩
  intro stream₂ hagree
  exact fallbackLoop_stream_agree destination count stream stream₂ (count * 10) 0 []
    (fun k hk1 hk2 => hagree k (by omega))

/-- Embedding of `get_budget_tip(budget)` (src/app.py:176-185). The budget
comes from a Streamlit slider over 5000..100000, a nonnegative integer. -/
def get_budget_tip (budget : Nat) : String :=
  if budget < 30000 then
    "Opt for budget-friendly dining, public transport, and free attractions."
  else if budget < 70000 then
    "Mix economical choices with occasional splurges on well-reviewed experiences."
  else
    "Enjoy premium experiences, fine dining, and exclusive guided tours."

/-- The month name `travel_date.strftime("%B")` used by `get_travel_advice`;
a date's month component is 1..12. -/
def monthName (month : Nat) : String :=
  match month with
  | 1 => "January"
  | 2 => "February"
  | 3 => "March"
  | 4 => "April"
  | 5 => "May"
  | 6 => "June"
  | 7 => "July"
  | 8 => "August"
  | 9 => "September"
  | 10 => "October"
  | 11 => "November"
  | 12 => "December"
  | _ => ""

/-- Embedding of `get_travel_advice(destination, travel_date)`
(src/app.py:124-174): the function reads only the date's month, so the date
is passed as its month number. Returns the pair (weather advice, language
tips). -/
def get_travel_advice (destination : String) (month : Nat) : String × String :=
  if destination = "Paris" then
    (if month ∈ ([12, 1, 2] : List Nat) then
      "In " ++ monthName month ++ ", Paris is wintry (around 5-10°C) – pack heavy, warm clothing."
    else if month ∈ ([3, 4, 5] : List Nat) then
      "In " ++ monthName month ++ ", Paris enjoys mild spring weather (10-15°C) with occasional rain – bring a light jacket and umbrella."
    else if month ∈ ([6, 7, 8] : List Nat) then
      "In " ++ monthName month ++ ", Paris is pleasantly warm (20-25°C) though evenings can be cool – opt for light clothing and a sweater."
    else
      "In " ++ monthName month ++ ", Paris is cool and sometimes rainy (10-15°C) – layering is advisable.",
     "French is the official language. Basic phrases like 'Bonjour', 'Merci', and 'Au revoir' are very useful.")
  else if destination = "Tokyo" then
    (if month ∈ ([12, 1, 2] : List Nat) then
      "During " ++ monthName month ++ ", Tokyo can be chilly (5-10°C) – pack warm layers."
    else if month ∈ ([3, 4, 5] : List Nat) then
      "In " ++ monthName month ++ ", Tokyo enjoys mild weather (10-18°C) with some rain – dress in layers and carry an umbrella."
    else if month ∈ ([6, 7, 8] : List Nat) then
      "In " ++ monthName month ++ ", Tokyo is hot and humid (25-30°C) – wear light, breathable clothing and use sunscreen."
    else
      "In " ++ monthName month ++ ", Tokyo's weather is mild with occasional showers (15-20°C) – a light jacket is sufficient.",
     "Japanese is the primary language. Learning phrases like 'こんにちは (Konnichiwa)' and 'ありがとう (Arigatou)' can enhance your trip.")
  else if destination = "New York" then
    (if month ∈ ([12, 1, 2] : List Nat) then
      "New York in " ++ monthName month ++ " is cold (−2°C to 5°C) – heavy winter attire is a must."
    else if month ∈ ([3, 4, 5] : List Nat) then
      "In " ++ monthName month ++ ", New York is mild (10-18°C) but can be unpredictable – dress in layers and bring a raincoat."
    else if month ∈ ([6, 7, 8] : List Nat) then
      monthName month ++ " in New York is hot and humid (25-30°C) – wear light clothing and stay hydrated."
    else
      "During " ++ monthName month ++ ", New York has moderate temperatures (10-20°C) – layered clothing is recommended.",
     "English is the primary language.")
  else if destination = "Goa" then
    (if month ∈ ([12, 1, 2] : List Nat) then
      "In " ++ monthName month ++ ", Goa is cooler (20-25°C) and ideal for sightseeing – pack a light jacket for evenings."
    else if month ∈ ([3, 4, 5] : List Nat) then
      monthName month ++ " in Goa is warm (25-30°C) and dry – opt for very light, breathable clothing."
    else if month ∈ ([6, 7, 8] : List Nat) then
      "During " ++ monthName month ++ ", Goa is hot and humid (28-33°C) with occasional rain – choose ultra-light clothes, use sunscreen, and stay hydrated."
    else
      "In " ++ monthName month ++ ", Goa is pleasantly warm (25-30°C) with a chance of brief showers – pack accordingly.",
     "English is widely spoken along with Konkani. Basic English usually suffices.")
  else
    ("Weather in " ++ destination ++ " during " ++ monthName month ++ " can be variable – please check the forecast and pack accordingly.",
     "Local languages in " ++ destination ++ " may vary – consider learning a few basic phrases or using a translation app.")

/-- C7: `get_travel_advice` is a pure function of destination and month.
For Paris in July (month 7) it returns the warm-summer 20-25°C weather string
and the French-phrases language string, for Paris in January (month 1) the
wintry 5-10°C string; for any destination outside the four presets it returns
the generic templated pair naming the month and the destination. -/
theorem get_travel_advice_C7 :
    (get_travel_advice "Paris" 7
      = ("In July, Paris is pleasantly warm (20-25°C) though evenings can be cool – opt for light clothing and a sweater.",
         "French is the official language. Basic phrases like 'Bonjour', 'Merci', and 'Au revoir' are very useful."))
    ∧ (get_travel_advice "Paris" 1
      = ("In January, Paris is wintry (around 5-10°C) – pack heavy, warm clothing.",
         "French is the official language. Basic phrases like 'Bonjour', 'Merci', and 'Au revoir' are very useful."))
    ∧ ∀ destination : String, destination ∉ (["Paris", "Tokyo", "New York", "Goa"] : List String) →
        ∀ month : Nat, get_travel_advice destination month
          = ("Weather in " ++ destination ++ " during " ++ monthName month
              ++ " can be variable – please check the forecast and pack accordingly.",
             "Local languages in " ++ destination
              ++ " may vary – consider learning a few basic phrases or using a translation app.") := by
  refine ⟨by decide, by decide, ?_⟩
  intro destination hdest month
  simp only [List.mem_cons, List.mem_singleton, not_or] at hdest
  obtain ⟨h1, h2, h3, h4, _⟩ := hdest
  simp [get_travel_advice, h1, h2, h3, h4]

/-- C8: `get_budget_tip` maps every budget to one of the three fixed advice
strings (which are pairwise distinct), via the thresholds 30000 and 70000;
at 20000 it gives the low-budget message, at 50000 the mid-budget message,
at 90000 the premium message. -/
theorem get_budget_tip_C8 :
    (∀ budget : Nat,
      get_budget_tip budget
          = "Opt for budget-friendly dining, public transport, and free attractions."
      ∨ get_budget_tip budget
          = "Mix economical choices with occasional splurges on well-reviewed experiences."
      ∨ get_budget_tip budget
          = "Enjoy premium experiences, fine dining, and exclusive guided tours.")
    ∧ get_budget_tip 20000
        = "Opt for budget-friendly dining, public transport, and free attractions."
    ∧ get_budget_tip 50000
        = "Mix economical choices with occasional splurges on well-reviewed experiences."
    ∧ get_budget_tip 90000
        = "Enjoy premium experiences, fine dining, and exclusive guided tours."
    ∧ ("Opt for budget-friendly dining, public transport, and free attractions." : String)
        ≠ "Mix economical choices with occasional splurges on well-reviewed experiences."
    ∧ ("Mix economical choices with occasional splurges on well-reviewed experiences." : String)
        ≠ "Enjoy premium experiences, fine dining, and exclusive guided tours."
    ∧ ("Opt for budget-friendly dining, public transport, and free attractions." : String)
        ≠ "Enjoy premium experiences, fine dining, and exclusive guided tours." := by
  refine ⟨?_, by decide, by decide, by decide, by decide, by decide, by decide⟩
  intro budget
  simp only [get_budget_tip]
  split
  · exact Or.inl rfl
  · split
    · exact Or.inr (Or.inl rfl)
    · exact Or.inr (Or.inr rfl)

/-- C9: both thresholds are strict: at exactly 30000 the mid-budget message
is returned (not the low-budget one), and at exactly 70000 the premium
message (not the mid-budget one). -/
theorem get_budget_tip_C9 :
    get_budget_tip 30000
        = "Mix economical choices with occasional splurges on well-reviewed experiences."
    ∧ get_budget_tip 30000
        ≠ "Opt for budget-friendly dining, public transport, and free attractions."
    ∧ get_budget_tip 70000
        = "Enjoy premium experiences, fine dining, and exclusive guided tours."
    ∧ get_budget_tip 70000
        ≠ "Mix economical choices with occasional splurges on well-reviewed experiences." := by
  refine ⟨by decide, by decide, by decide, by decide⟩

/-- Witness for C7 at a concrete non-preset destination and month. -/
theorem get_travel_advice_C7_witness :
    get_travel_advice "Berlin" 3
      = ("Weather in Berlin during March can be variable – please check the forecast and pack accordingly.",
         "Local languages in Berlin may vary – consider learning a few basic phrases or using a translation app.") := by
  have h := get_travel_advice_C7.2.2 "Berlin" (by decide) 3
  simpa using h

/-- One itinerary entry `{"Day": i+1, "Activities": group}` (src/app.py:118). -/
structure Day where
  day : Nat
  activities : List String
deriving DecidableEq

/-- The value found at `data[1]` in the parsed JSON response of the
opensearch call (src/app.py:106-107): a JSON value. When it is an array the
Wikipedia opensearch endpoint fills it with strings, so the array case
carries strings; for an object only its keys matter (Python iteration over a
dict yields its keys), so the object case carries its keys. -/
inductive JBody where
  | jnull : JBody
  | jbool : Bool → JBody
  | jnum : Int → JBody
  | jstr : String → JBody
  | jarr : List String → JBody
  | jobj : List String → JBody
deriving DecidableEq

/-- What Python's `for t in tasks` (src/app.py:110) yields on the value
`data[1]`: the elements of an array, the single-character strings of a
string, the keys of an object; `none` when the value is not iterable (null,
bool, number), where Python raises `TypeError`, caught by the `except`. -/
def iterStrings : JBody → Option (List String)
  | .jstr s => some (s.data.map fun c => String.mk [c])
  | .jarr elems => some elems
  | .jobj keys => some keys
  | _ => none

/-- The outcome of the guarded calls of `fetch_itinerary_from_wiki`
(src/app.py:103-107): `failure` stands for any raised exception before
`data[1]` is iterated — a network error in `requests.get`, a non-2xx status
raised by `raise_for_status`, a JSON decode error, or an index error on
`data[1]`; `body` carries the value of `data[1]` otherwise. -/
inductive WikiOutcome where
  | failure : String → WikiOutcome
  | body : JBody → WikiOutcome

/-- The comprehension `[{"Day": i + 1, "Activities": group} for i, group in
enumerate(groups)]` (src/app.py:118). -/
def buildItinerary (groups : List (List String)) : List Day :=
  groups.enum.map fun p => ⟨p.1 + 1, p.2⟩

/-- Embedding of `fetch_itinerary_from_wiki(destination, duration)`
(src/app.py:88-122). The randomness of `get_fallback_list`,
`create_global_pool` and `generate_groups_from_global_pool` is passed through
as `fstream`, `draws` and `positions`. On any exception the function reports
the error to the UI and returns the empty list; there is no retry. -/
def fetch_itinerary_from_wiki (destination : String) (duration : Nat)
    (outcome : WikiOutcome) (fstream : Nat → Nat × Option Nat)
    (draws : List Nat) (positions : List Nat) : List Day :=
  let points_required := duration * 3
  match outcome with
  | .failure _ => []
  | .body second =>
    match iterStrings second with
    | none => []
    | some tasks =>
      let unique_tasks := dedupAux [] tasks
      let fallback_list := get_fallback_list destination fstream
      let global_pool := create_global_pool unique_tasks fallback_list destination
        points_required draws
      let groups := generate_groups_from_global_pool global_pool duration 3 positions
      buildItinerary groups

/-- The non-preset branch of the Generate Itinerary handler
(src/app.py:412-419): fetch from the live source; when the result is empty,
warn and rebuild from an empty candidate list and the synthetic fallback
pool. The degraded path draws fresh randomness (`fstream₂`, `draws₂`,
`positions₂`). -/
def handlerCustomBranch (destination : String) (duration : Nat) (outcome : WikiOutcome)
    (fstream fstream₂ : Nat → Nat × Option Nat) (draws draws₂ : List Nat)
    (positions positions₂ : List Nat) : List Day :=
  let itinerary := fetch_itinerary_from_wiki destination duration outcome fstream
    draws positions
  if itinerary.isEmpty then
    let fallback_list := get_fallback_list destination fstream₂
    let global_pool := create_global_pool [] fallback_list destination (duration * 3) draws₂
    buildItinerary (generate_groups_from_global_pool global_pool duration 3 positions₂)
  else itinerary

/-- The claim as written fails for one of its failure modes: a response body
whose second array element is the JSON string `"ab"` is not a list of
suggestion strings, yet `fetch_itinerary_from_wiki` does not treat it as a
failure — Python iterates the string character by character, takes `["a", "b"]`
as the task list and returns a non-empty itinerary built from it. -/
theorem fetch_itinerary_C5_cex :
    fetch_itinerary_from_wiki "X" 1 (.body (.jstr "ab")) (fun _ => (0, none))
        [0] [0, 1, 2] ≠ []
    ∧ (fetch_itinerary_from_wiki "X" 1 (.body (.jstr "ab")) (fun _ => (0, none))
        [0] [0, 1, 2]).length = 1 := by
  constructor
  · intro h
    have := congrArg List.length h
    simp only [fetch_itinerary_from_wiki, iterStrings, buildItinerary, List.length_map,
      List.enum_length, generate_groups_from_global_pool, List.length_range,
      List.length_nil] at this
    omega
  · simp only [fetch_itinerary_from_wiki, iterStrings, buildItinerary, List.length_map,
      List.enum_length, generate_groups_from_global_pool, List.length_range]

/-- C5 (amended): on every failure that raises an exception — network error,
non-2xx HTTP status, malformed JSON, a missing second element, or a second
element that is not iterable — `fetch_itinerary_from_wiki` returns the empty
list (no retry is modelled: the outcome is consumed once), and the handler
then builds the itinerary entirely from the synthetic fallback pool with an
empty candidate list. An iterable non-list second element (a string or an
object) is instead consumed as the task list and is not a failure. -/
theorem fetch_itinerary_C5 (destination : String) (duration : Nat) (outcome : WikiOutcome)
    (fstream fstream₂ : Nat → Nat × Option Nat) (draws draws₂ : List Nat)
    (positions positions₂ : List Nat)
    (hfail : (∃ msg, outcome = .failure msg)
      ∨ (∃ second, outcome = .body second ∧ iterStrings second = none)) :
    fetch_itinerary_from_wiki destination duration outcome fstream draws positions = []
    ∧ handlerCustomBranch destination duration outcome fstream fstream₂ draws draws₂
        positions positions₂
      = buildItinerary (generate_groups_from_global_pool
          (create_global_pool [] (get_fallback_list destination fstream₂) destination
            (duration * 3) draws₂) duration 3 positions₂) := by
  have hempty : fetch_itinerary_from_wiki destination duration outcome fstream
      draws positions = [] := by
    rcases hfail with ⟨msg, rfl⟩ | ⟨second, rfl, hiter⟩
    · rfl
    · simp [fetch_itinerary_from_wiki, hiter]
  refine ⟨hempty, ?_⟩
  simp [handlerCustomBranch, hempty]

/-- Witness for C5 at a concrete failing outcome (a network error). -/
theorem fetch_itinerary_C5_witness :
    fetch_itinerary_from_wiki "Atlantis" 2 (.failure "connection refused")
        (fun _ => (0, none)) [] [] = []
    ∧ handlerCustomBranch "Atlantis" 2 (.failure "connection refused")
        (fun _ => (0, none)) (fun _ => (1, none)) [] [] [] []
      = buildItinerary (generate_groups_from_global_pool
          (create_global_pool [] (get_fallback_list "Atlantis" fun _ => (1, none))
            "Atlantis" (2 * 3) []) 2 3 []) :=
  fetch_itinerary_C5 "Atlantis" 2 (.failure "connection refused")
    (fun _ => (0, none)) (fun _ => (1, none)) [] [] [] []
    (Or.inl ⟨"connection refused", rfl⟩)

/-- The preset itineraries dictionary (src/app.py:189-226), as a lookup from
the destination name. -/
def preset_itineraries (destination : String) : Option (List String) :=
  if destination = "Paris" then some
    ["Morning: Visit the Eiffel Tower and enjoy panoramic views.",
     "Late Morning: Explore the Louvre Museum to see timeless artworks.",
     "Afternoon: Savor lunch at a charming café along the Seine.",
     "Early Afternoon: Visit the exterior of Notre-Dame Cathedral and wander historic streets.",
     "Late Afternoon: Stroll through Montmartre and admire Sacré-Cœur Basilica.",
     "Evening: Dine in a traditional French bistro and sample local specialties.",
     "Night: Enjoy a scenic river cruise on the Seine with illuminated landmarks."]
  else if destination = "Tokyo" then some
    ["Morning: Begin at Senso-ji Temple in Asakusa and explore bustling market streets.",
     "Late Morning: Wander along Nakamise Street while sampling traditional snacks.",
     "Afternoon: Enjoy a sushi lunch at a renowned local eatery.",
     "Early Afternoon: Stroll through Ueno Park and visit eclectic museums.",
     "Late Afternoon: Experience the energy of Shibuya Crossing.",
     "Evening: Dine in Shinjuku and take in the lively nightlife.",
     "Night: Relax at an izakaya or enjoy city views from an observatory."]
  else if destination = "New York" then some
    ["Morning: Start with breakfast in Times Square to feel the city’s energy.",
     "Late Morning: Walk through Central Park, visiting iconic spots like Bethesda Terrace.",
     "Afternoon: Have lunch at a famous deli and visit a world-class museum.",
     "Early Afternoon: Explore trendy neighborhoods like SoHo for art and shopping.",
     "Late Afternoon: Take a ferry ride to see the Statue of Liberty up close.",
     "Evening: Enjoy a Broadway show followed by dinner at a top-tier restaurant.",
     "Night: Experience the vibrant nightlife or take a relaxing stroll through a buzzing district."]
  else if destination = "Goa" then some
    ["Morning: Relax on Baga Beach and watch a serene sunrise over the Arabian Sea.",
     "Late Morning: Explore Fort Aguada for its historic charm and coastal views.",
     "Afternoon: Savor a seafood lunch at a beachside shack.",
     "Early Afternoon: Tour a spice plantation to learn about local flavors.",
     "Late Afternoon: Enjoy water sports or take a boat ride along the coast.",
     "Evening: Stroll along the beach while sampling local street food.",
     "Night: Dine on authentic Goan cuisine and enjoy live music by the sea."]
  else none

/-- The `extra_tasks` lists of the preset branch of the Generate Itinerary
handler (src/app.py:350-405), selected in the source's order of checks. -/
def extra_tasks_for (destination : String) : List String :=
  if destination = "Goa" then
    ["Explore local art galleries in Goa",
     "Attend a cultural performance in Goa",
     "Relax in one of Goa's scenic parks",
     "Visit an offbeat museum in Goa",
     "Experience the vibrant nightlife of Goa",
     "Take a local cooking class in Goa",
     "Shop at Mapusa Market in Goa",
     "Shop at Anjuna Flea Market in Goa",
     "Join a guided historical tour in Goa"]
  else if destination = "Paris" then
    ["Explore chic boutiques and art galleries in Paris",
     "Attend a classical music concert in Paris",
     "Relax at a riverside park in Paris",
     "Visit a contemporary art museum in Paris",
     "Experience Parisian nightlife in trendy bars",
     "Take a pastry-making class in Paris",
     "Shop at local flea markets in Paris",
     "Join a guided walking tour in Montmartre"]
  else if destination = "Tokyo" then
    ["Explore futuristic art galleries in Tokyo",
     "Attend a traditional Kabuki performance in Tokyo",
     "Relax in a serene Japanese garden in Tokyo",
     "Visit a modern museum in Tokyo",
     "Experience Tokyo's bustling nightlife in Shibuya",
     "Take a sushi-making class in Tokyo",
     "Shop at local district markets in Tokyo",
     "Join a guided tour of historical temples in Tokyo"]
  else if destination = "New York" then
    ["Explore local art galleries in New York",
     "Attend a Broadway musical in New York",
     "Relax in Central Park",
     "Visit a cutting-edge museum in New York",
     "Experience New York's vibrant nightlife",
     "Take a culinary tour of New York's diverse neighborhoods",
     "Shop at trendy boutiques and street fairs in New York",
     "Join a guided historical tour of Manhattan"]
  else
    ["Explore local art galleries in " ++ destination,
     "Attend a cultural performance in " ++ destination,
     "Relax in a scenic park in " ++ destination,
     "Visit a modern museum in " ++ destination,
     "Experience vibrant nightlife in " ++ destination,
     "Take a local cooking class in " ++ destination,
     "Shop at local markets in " ++ destination,
     "Join a guided historical tour in " ++ destination]

/-- `itinerary[0]['Activities'] = [departure_message] + itinerary[0]['Activities']`
(src/app.py:423): prepend a message to the first day's activities (the
handler's itinerary is never empty since the duration slider is at least 1;
the empty case is a no-op). -/
def prependToFirst (msg : String) : List Day → List Day
  | [] => []
  | d :: rest => ⟨d.day, msg :: d.activities⟩ :: rest

/-- `itinerary[-1]['Activities'].append(return_message)` (src/app.py:425):
append a message to the last day's activities. -/
def appendToLast (msg : String) : List Day → List Day
  | [] => []
  | [d] => [⟨d.day, d.activities ++ [msg]⟩]
  | d :: e :: rest => d :: appendToLast msg (e :: rest)

/-- Python's `str.strip()` (whitespace from both ends), defined over the
character list so that concrete instances reduce. -/
def pyStrip (s : String) : String :=
  ⟨((s.data.dropWhile Char.isWhitespace).reverse.dropWhile Char.isWhitespace).reverse⟩

/-- Python's `str.lower()`, defined over the character list so that concrete
instances reduce (ASCII case mapping, which covers every use in the
program). -/
def pyLower (s : String) : String :=
  ⟨s.data.map Char.toLower⟩

/-- The annotation step of the Generate Itinerary handler (src/app.py:421-429):
flight lines are added only when the stripped starting location is non-empty
(Python truthiness of `start_location.strip()`) and differs case-insensitively
from the destination; then a budget tip line is appended to every day. -/
def annotateItinerary (start_location destination : String) (budget : Nat)
    (itinerary : List Day) : List Day :=
  let itinerary :=
    if pyStrip start_location ≠ "" ∧ pyLower start_location ≠ pyLower destination then
      appendToLast ("Take a flight from " ++ destination ++ " back to " ++ start_location ++ ".")
        (prependToFirst ("Take a flight from " ++ start_location ++ " to " ++ destination ++ ".")
          itinerary)
    else itinerary
  itinerary.map fun d => ⟨d.day, d.activities ++ ["Budget Tip: " ++ get_budget_tip budget]⟩

/-- The Generate Itinerary handler (src/app.py:346-429): the preset branch
builds `global_tasks = list(set(base_points + extra_tasks))` (a set: modelled
as first-occurrence deduplication; no theorem depends on the order), tops it
up to `duration * 3` with fallback items, samples daily groups; the non-preset
branch fetches from the live source, degrading to the synthetic pool; finally
the flight and budget-tip annotations are applied. -/
def generateItinerary (destination start_location : String) (budget duration : Nat)
    (outcome : WikiOutcome) (fstream fstream₂ : Nat → Nat × Option Nat)
    (draws draws₂ : List Nat) (positions positions₂ : List Nat) : List Day :=
  let itinerary :=
    match preset_itineraries destination with
    | some base_points =>
      let global_tasks := dedupAux [] (base_points ++ extra_tasks_for destination)
      let fallback_list := get_fallback_list destination fstream
      let global_pool := create_global_pool global_tasks fallback_list destination
        (duration * 3) draws
      buildItinerary (generate_groups_from_global_pool global_pool duration 3 positions)
    | none => handlerCustomBranch destination duration outcome fstream fstream₂
        draws draws₂ positions positions₂
  annotateItinerary start_location destination budget itinerary

theorem buildItinerary_two (a b : List String) :
    buildItinerary [a, b] = [⟨1, a⟩, ⟨2, b⟩] := rfl

theorem annotateItinerary_two (start_location destination : String) (budget : Nat)
    (d1 d2 : Day)
    (hc : pyStrip start_location ≠ "" ∧ pyLower start_location ≠ pyLower destination) :
    annotateItinerary start_location destination budget [d1, d2]
      = [⟨d1.day, ("Take a flight from " ++ start_location ++ " to " ++ destination ++ ".")
            :: (d1.activities ++ ["Budget Tip: " ++ get_budget_tip budget])⟩,
         ⟨d2.day, (d2.activities
              ++ ["Take a flight from " ++ destination ++ " back to " ++ start_location ++ "."])
            ++ ["Budget Tip: " ++ get_budget_tip budget]⟩] := by
  simp [annotateItinerary, if_pos hc, prependToFirst, appendToLast]

/-- C6: generating for destination "Goa", duration 2, starting location
"Mumbai": whatever the random draws and the live-source outcome, the
itinerary has 2 days, the first day's activities begin with
"Take a flight from Mumbai to Goa.", and the last day's activities end with
the return-flight line followed by the budget-tip line. -/
theorem generateItinerary_C6 (budget : Nat) (outcome : WikiOutcome)
    (fstream fstream₂ : Nat → Nat × Option Nat) (draws draws₂ : List Nat)
    (positions positions₂ : List Nat) :
    (generateItinerary "Goa" "Mumbai" budget 2 outcome fstream fstream₂ draws draws₂
        positions positions₂).length = 2
    ∧ (∃ d rest, generateItinerary "Goa" "Mumbai" budget 2 outcome fstream fstream₂ draws
          draws₂ positions positions₂ = d :: rest
        ∧ ∃ acts, d.activities = "Take a flight from Mumbai to Goa." :: acts)
    ∧ ∃ front, ((generateItinerary "Goa" "Mumbai" budget 2 outcome fstream fstream₂ draws
          draws₂ positions positions₂).getLastD ⟨0, []⟩).activities
        = front ++ ["Take a flight from Goa back to Mumbai.",
            "Budget Tip: " ++ get_budget_tip budget] := by
  have hcond : (pyStrip "Mumbai" ≠ "" ∧ pyLower "Mumbai" ≠ pyLower "Goa") := by decide
  obtain ⟨base, hp⟩ : ∃ b, preset_itineraries "Goa" = some b := ⟨_, rfl⟩
  obtain ⟨t0, t1, hg⟩ : ∃ a b,
      generate_groups_from_global_pool
        (create_global_pool (dedupAux [] (base ++ extra_tasks_for "Goa"))
          (get_fallback_list "Goa" fstream) "Goa" (2 * 3) draws) 2 3 positions
      = [a, b] := ⟨_, _, rfl⟩
  have hmain : generateItinerary "Goa" "Mumbai" budget 2 outcome fstream fstream₂ draws
      draws₂ positions positions₂
      = [⟨1, "Take a flight from Mumbai to Goa."
            :: (t0 ++ ["Budget Tip: " ++ get_budget_tip budget])⟩,
         ⟨2, (t1 ++ ["Take a flight from Goa back to Mumbai."])
            ++ ["Budget Tip: " ++ get_budget_tip budget]⟩] := by
    simp only [generateItinerary, hp, hg, buildItinerary_two]
    exact annotateItinerary_two "Mumbai" "Goa" budget ⟨1, t0⟩ ⟨2, t1⟩ hcond
  rw [hmain]
  refine ⟨rfl, ⟨_, _, rfl, ⟨_, rfl⟩⟩, ⟨t1, ?_⟩⟩
  simp [List.getLastD, List.append_assoc]

theorem prependToFirst_length (msg : String) (l : List Day) :
    (prependToFirst msg l).length = l.length := by
  cases l <;> simp [prependToFirst]

theorem appendToLast_length (msg : String) (l : List Day) :
    (appendToLast msg l).length = l.length := by
  induction l with
  | nil => rfl
  | cons d rest ih =>
    cases rest with
    | nil => rfl
    | cons e rest2 => simpa [appendToLast] using ih

theorem prependToFirst_getElem (msg : String) (l : List Day) (i : Nat) (hi : 0 < i) :
    (prependToFirst msg l)[i]? = l[i]? := by
  cases l with
  | nil => rfl
  | cons d rest =>
    cases i with
    | zero => omega
    | succ n => simp [prependToFirst]

theorem appendToLast_getElem (msg : String) (l : List Day) (i : Nat) (hi : i + 1 < l.length) :
    (appendToLast msg l)[i]? = l[i]? := by
  induction l generalizing i with
  | nil => simp at hi
  | cons d rest ih =>
    cases rest with
    | nil => simp at hi
    | cons e rest2 =>
      cases i with
      | zero => simp [appendToLast]
      | succ n =>
        have hn : n + 1 < (e :: rest2).length := by
          simpa using hi
        simp only [appendToLast, List.getElem?_cons_succ]
        exact ih n hn

theorem buildItinerary_length (groups : List (List String)) :
    (buildItinerary groups).length = groups.length := by
  simp [buildItinerary]

theorem buildItinerary_getElem (groups : List (List String)) (i : Nat) :
    (buildItinerary groups)[i]? = (groups[i]?).map fun g => (⟨i + 1, g⟩ : Day) := by
  simp [buildItinerary, List.getElem?_enum, Option.map_map]
  rfl

theorem generate_groups_length (global_pool : List String) (days tpd : Nat)
    (positions : List Nat) :
    (generate_groups_from_global_pool global_pool days tpd positions).length = days := by
  simp [generate_groups_from_global_pool]

theorem generate_groups_getElem (global_pool : List String) (days tpd : Nat)
    (positions : List Nat) (i : Nat) (hi : i < days) :
    (generate_groups_from_global_pool global_pool days tpd positions)[i]?
      = some (((positions.map fun j => global_pool.getD j "").drop (i * tpd)).take tpd) := by
  simp [generate_groups_from_global_pool, List.getElem?_map, List.getElem?_range hi]

/-- C10: flight lines guard. When the stripped starting location is blank or
equals the destination case-insensitively, no flight line is added: every
day's activity list is exactly its 3 sampled activities followed by the one
appended budget-tip line. In either case, days other than the first and the
last receive no flight line: each middle day is exactly its 3 sampled
activities plus the budget-tip line. -/
theorem annotateItinerary_C10 (start_location destination : String) (budget duration : Nat)
    (global_pool : List String) (positions : List Nat)
    (hlen : positions.length = duration * 3) :
    (¬ (pyStrip start_location ≠ "" ∧ pyLower start_location ≠ pyLower destination) →
      ∀ i, i < duration →
        (annotateItinerary start_location destination budget
            (buildItinerary
              (generate_groups_from_global_pool global_pool duration 3 positions)))[i]?
          = some ⟨i + 1, ((positions.map fun j => global_pool.getD j "").drop (i * 3)).take 3
              ++ ["Budget Tip: " ++ get_budget_tip budget]⟩
        ∧ (((positions.map fun j => global_pool.getD j "").drop (i * 3)).take 3).length = 3)
    ∧ ∀ i, 0 < i → i + 1 < duration →
        (annotateItinerary start_location destination budget
            (buildItinerary
              (generate_groups_from_global_pool global_pool duration 3 positions)))[i]?
          = some ⟨i + 1, ((positions.map fun j => global_pool.getD j "").drop (i * 3)).take 3
              ++ ["Budget Tip: " ++ get_budget_tip budget]⟩ := by
  have hglen : ∀ i, i < duration →
      (((positions.map fun j => global_pool.getD j "").drop (i * 3)).take 3).length = 3 := by
    intro i hi
    rw [List.length_take, List.length_drop, List.length_map, hlen]
    omega
  constructor
  · intro hneg i hi
    refine ⟨?_, hglen i hi⟩
    simp only [annotateItinerary, if_neg hneg, List.getElem?_map, buildItinerary_getElem,
      generate_groups_getElem global_pool duration 3 positions i hi]
    rfl
  · intro i hpos hlt
    by_cases hc : pyStrip start_location ≠ "" ∧ pyLower start_location ≠ pyLower destination
    · have hplen : (prependToFirst
          ("Take a flight from " ++ start_location ++ " to " ++ destination ++ ".")
          (buildItinerary
            (generate_groups_from_global_pool global_pool duration 3 positions))).length
          = duration := by
        rw [prependToFirst_length, buildItinerary_length, generate_groups_length]
      simp only [annotateItinerary, if_pos hc, List.getElem?_map]
      rw [appendToLast_getElem _ _ i (by rw [hplen]; omega),
        prependToFirst_getElem _ _ i hpos, buildItinerary_getElem,
        generate_groups_getElem global_pool duration 3 positions i (by omega)]
      rfl
    · simp only [annotateItinerary, if_neg hc, List.getElem?_map, buildItinerary_getElem,
        generate_groups_getElem global_pool duration 3 positions i (by omega)]
      rfl

/-- Witness for C10 at a concrete input: blank starting location, duration 1,
positions `[0, 1, 2]`. -/
theorem annotateItinerary_C10_witness :
    (¬ (pyStrip "" ≠ "" ∧ pyLower "" ≠ pyLower "Goa") →
      ∀ i, i < 1 →
        (annotateItinerary "" "Goa" 0
            (buildItinerary
              (generate_groups_from_global_pool ["x", "y", "z"] 1 3 [0, 1, 2])))[i]?
          = some ⟨i + 1, ((([0, 1, 2] : List Nat).map
                fun j => (["x", "y", "z"] : List String).getD j "").drop (i * 3)).take 3
              ++ ["Budget Tip: " ++ get_budget_tip 0]⟩
        ∧ (((([0, 1, 2] : List Nat).map
              fun j => (["x", "y", "z"] : List String).getD j "").drop (i * 3)).take 3).length
            = 3)
    ∧ ∀ i, 0 < i → i + 1 < 1 →
        (annotateItinerary "" "Goa" 0
            (buildItinerary
              (generate_groups_from_global_pool ["x", "y", "z"] 1 3 [0, 1, 2])))[i]?
          = some ⟨i + 1, ((([0, 1, 2] : List Nat).map
                fun j => (["x", "y", "z"] : List String).getD j "").drop (i * 3)).take 3
              ++ ["Budget Tip: " ++ get_budget_tip 0]⟩ :=
  annotateItinerary_C10 "" "Goa" 0 1 ["x", "y", "z"] [0, 1, 2] (by decide)
